import Mathlib

/-!
Shallow embedding of the bounty-webhooks relay service (src/index.ts):
event detection from snapshot diffs, HMAC-signed webhook delivery with
bounded retry, the delivery log, and the poll-and-dispatch cycle.

Wall-clock values (Date.now / toISOString), the HMAC-SHA256 primitive and
JSON serialization are abstracted as parameters: the code treats them as
opaque byte/string producers and the properties verified here do not
depend on their internals.
-/

namespace BountyWebhooks

/-- Event types, `EventType` in index.ts:
    "bounty.created" | "bounty.claimed" | "bounty.submitted" | "bounty.completed". -/
inductive EventType where
  | created
  | claimed
  | submitted
  | completed
deriving DecidableEq, Repr

/-- The wire name of an event type (the TS string literal). -/
def EventType.wireName : EventType → String
  | .created => "bounty.created"
  | .claimed => "bounty.claimed"
  | .submitted => "bounty.submitted"
  | .completed => "bounty.completed"

/-- Snapshot of a bounty, `BountySnapshot` in index.ts. -/
structure BountySnapshot where
  id : Int
  status : String
  claimedBy : Option String
  submittedAt : Option String
  completedAt : Option String
deriving DecidableEq, Repr

/-- A raw record from the upstream feed (`Record<string, unknown>` in TS);
    only the fields the code reads are modelled. `none` stands for a missing
    (undefined/null) field. -/
structure RawBounty where
  id : Int
  status : String
  claimedBy : Option String
  submittedAt : Option String
  completedAt : Option String
deriving DecidableEq, Repr

/-- A delivery log entry, `DeliveryLogEntry` in index.ts. The `lastAttempt`
    wall-clock timestamp is not modelled. -/
structure DeliveryLogEntry where
  eventId : String
  endpointId : String
  status : String
  attempts : Nat
  statusCode : Option Nat
deriving DecidableEq, Repr

/-- A webhook endpoint, `WebhookEndpoint` in index.ts. -/
structure WebhookEndpoint where
  id : String
  url : String
  events : List EventType
  active : Bool
  secret : Option String
  createdAt : String
deriving DecidableEq, Repr

/-- A webhook event, `WebhookEvent` in index.ts. -/
structure WebhookEvent where
  id : String
  type : EventType
  bountyId : Int
  data : RawBounty
  timestamp : String
deriving DecidableEq, Repr

/-- In-memory service state, `StateData` in index.ts.
    `knownBounties` is the JS object `Record<number, BountySnapshot>`,
    modelled as a lookup function. -/
structure StateData where
  knownBounties : Int → Option BountySnapshot
  deliveryLog : List DeliveryLogEntry

/-- `MAX_RETRIES = 3` in index.ts. -/
def MAX_RETRIES : Nat := 3

/-- `RETRY_BASE_MS = 1000` in index.ts. -/
def RETRY_BASE_MS : Nat := 1000

/-- Event detection, `detectEvents(oldSnapshot, newBounty)` in index.ts
    lines 108-136, translated clause for clause. -/
def detectEvents (oldSnapshot : Option BountySnapshot) (newBounty : RawBounty) :
    List EventType :=
  match oldSnapshot with
  | none =>
      [EventType.created]
        ++ (if newBounty.status = "claimed" then [EventType.claimed] else [])
        ++ (if newBounty.status = "submitted" then [EventType.submitted] else [])
        ++ (if newBounty.status = "completed" then [EventType.completed] else [])
  | some old =>
      (if old.status ≠ "claimed" ∧ newBounty.status = "claimed"
        then [EventType.claimed] else [])
        ++ (if old.status ≠ "submitted" ∧ newBounty.status = "submitted"
            then [EventType.submitted] else [])
        ++ (if old.status ≠ "completed" ∧ newBounty.status = "completed"
            then [EventType.completed] else [])

/-- JS key resolution `secret || HMAC_SECRET`: the subscriber secret when
    present and non-empty (empty string is falsy), else the default key. -/
def resolveKey (hmacSecret : String) (secret : Option String) : String :=
  match secret with
  | some s => if s = "" then hmacSecret else s
  | none => hmacSecret

/-- HMAC signing, `signPayload(payload, secret)` in index.ts lines 103-105.
    The HMAC-SHA256-hex primitive is a parameter `hmac : key → message → mac`. -/
def signPayload (hmac : String → String → String) (hmacSecret : String)
    (payload : String) (secret : Option String) : String :=
  hmac (resolveKey hmacSecret secret) payload

/-- Outcome of one `fetch` call inside the delivery loop: either an HTTP
    response with a status code, or a thrown transport-level exception. -/
inductive FetchOutcome where
  | response (status : Nat)
  | exception
deriving DecidableEq, Repr

/-- The Fetch standard's `Response.ok`: status in the 200-299 range. -/
def respOk (status : Nat) : Bool :=
  200 ≤ status && status ≤ 299

/-- The attempt fails: non-2xx response, or a transport-level exception. -/
def attemptFails : FetchOutcome → Prop
  | .response s => respOk s = false
  | .exception => True

/-- The POST request of a single delivery attempt, as the code builds it in
    index.ts lines 148-158: its body and its signature-bearing headers. -/
structure AttemptRequest where
  url : String
  xSignature : String
  xEventType : String
  xEventId : String
  xWebhookId : String
  body : String
deriving DecidableEq, Repr

/-- The request sent on every attempt of one delivery
    (index.ts lines 148-158): same url, headers and body each time. -/
def mkRequest (endpoint : WebhookEndpoint) (event : WebhookEvent)
    (payload signature : String) : AttemptRequest :=
  { url := endpoint.url
    xSignature := "sha256=" ++ signature
    xEventType := event.type.wireName
    xEventId := event.id
    xWebhookId := endpoint.id
    body := payload }

/-- The log entry pushed when an attempt received an HTTP response
    (index.ts lines 160-168): status from `res.ok`, the attempt number,
    and the response status code. -/
def responseEntry (endpoint : WebhookEndpoint) (event : WebhookEvent)
    (attempt : Nat) (status : Nat) : DeliveryLogEntry :=
  { eventId := event.id
    endpointId := endpoint.id
    status := if respOk status then "success" else "failed"
    attempts := attempt
    statusCode := some status }

/-- The terminal entry pushed after the retry loop exhausts all attempts
    (index.ts lines 187-193): `failed`, attempts = MAX_RETRIES, no status code. -/
def exhaustedEntry (endpoint : WebhookEndpoint) (event : WebhookEvent) :
    DeliveryLogEntry :=
  { eventId := event.id
    endpointId := endpoint.id
    status := "failed"
    attempts := MAX_RETRIES
    statusCode := none }

/-- Closed form of the per-attempt entries the retry loop pushes over its
    first `n` attempts when none of them succeeds (index.ts lines 160-168):
    one `failed` entry, carrying that attempt's number and status code, for
    each attempt that received a non-2xx HTTP response, and no entry for an
    attempt that failed at transport level. -/
def httpFailEntries (endpoint : WebhookEndpoint) (event : WebhookEvent)
    (outcome : Nat → FetchOutcome) : Nat → List DeliveryLogEntry
  | 0 => []
  | n + 1 =>
      httpFailEntries endpoint event outcome n ++
        match outcome (n + 1) with
        | .response s =>
            if respOk s then [] else [responseEntry endpoint event (n + 1) s]
        | .exception => []

/-- Result of one delivery: the boolean the function returns, the log
    entries it pushed (in push order), and the requests it sent (one per
    attempt, in order). -/
structure DeliveryResult where
  returned : Bool
  entries : List DeliveryLogEntry
  requests : List AttemptRequest
deriving DecidableEq, Repr

/-- The retry loop of `deliverWebhook` (index.ts lines 146-196), recursing
    on the number of loop iterations left (`fuel`); `attempt` is the
    1-based loop counter, `outcome attempt` what that attempt's fetch did.
    When the fuel runs out the loop has ended without success and the
    terminal failed entry is pushed. The backoff sleep between attempts
    (lines 181-184) only consumes time and is not modelled. -/
def deliverLoop (endpoint : WebhookEndpoint) (event : WebhookEvent)
    (payload signature : String) (outcome : Nat → FetchOutcome) :
    Nat → Nat → DeliveryResult
  | _, 0 =>
      { returned := false
        entries := [exhaustedEntry endpoint event]
        requests := [] }
  | attempt, fuel + 1 =>
      let req := mkRequest endpoint event payload signature
      match outcome attempt with
      | .response status =>
          if respOk status then
            { returned := true
              entries := [responseEntry endpoint event attempt status]
              requests := [req] }
          else
            let rest := deliverLoop endpoint event payload signature outcome
              (attempt + 1) fuel
            { returned := rest.returned
              entries := responseEntry endpoint event attempt status :: rest.entries
              requests := req :: rest.requests }
      | .exception =>
          let rest := deliverLoop endpoint event payload signature outcome
            (attempt + 1) fuel
          { returned := rest.returned
            entries := rest.entries
            requests := req :: rest.requests }

/-- Webhook delivery, `deliverWebhook(endpoint, event)` in index.ts lines
    139-196. `stringify` abstracts `JSON.stringify`, `hmac` the
    HMAC-SHA256-hex primitive, `hmacSecret` the process-wide default key,
    and `outcome` what each attempt's fetch did. The payload and signature
    are computed once, before the loop (lines 143-144). -/
def deliverWebhook (stringify : WebhookEvent → String)
    (hmac : String → String → String) (hmacSecret : String)
    (endpoint : WebhookEndpoint) (event : WebhookEvent)
    (outcome : Nat → FetchOutcome) : DeliveryResult :=
  let payload := stringify event
  let signature := signPayload hmac hmacSecret payload endpoint.secret
  deliverLoop endpoint event payload signature outcome 1 MAX_RETRIES

/-- JS coercion `(x as string) || null`: a missing field or the empty
    string (falsy) becomes null. -/
def jsOrNull (s : Option String) : Option String :=
  match s with
  | some v => if v = "" then none else some v
  | none => none

/-- The snapshot written for a polled record, index.ts lines 215-221. -/
def mkSnapshot (bounty : RawBounty) : BountySnapshot :=
  { id := bounty.id
    status := bounty.status
    claimedBy := jsOrNull bounty.claimedBy
    submittedAt := jsOrNull bounty.submittedAt
    completedAt := jsOrNull bounty.completedAt }

/-- Persistence flush, `saveState()` in index.ts lines 80-86: trims the
    delivery log to its most recent 1000 entries when it holds more, then
    writes the state file (the file write itself is outside the model;
    the state this function leaves behind is what gets persisted). JS
    `slice(-1000)` is the suffix of length 1000. -/
def saveState (st : StateData) : StateData :=
  if st.deliveryLog.length > 1000 then
    { st with deliveryLog := st.deliveryLog.drop (st.deliveryLog.length - 1000) }
  else
    st

/-- Ambient inputs of one poll cycle: the abstracted serialization and
    HMAC primitives, the default key, the subscriber list read for the
    cycle, an oracle giving each delivery attempt's fetch outcome, and the
    wall clock (abstracted to fixed values; no verified property depends
    on clock readings). -/
structure PollEnv where
  stringify : WebhookEvent → String
  hmac : String → String → String
  hmacSecret : String
  endpoints : List WebhookEndpoint
  outcome : WebhookEndpoint → WebhookEvent → Nat → FetchOutcome
  nowMs : Nat
  nowIso : String

/-- The event value built for a detected transition, index.ts lines
    225-231: id `evt_<bountyId>_<type>_<epochMillis>`, the full polled
    record as data. -/
def mkEvent (env : PollEnv) (bounty : RawBounty) (t : EventType) : WebhookEvent :=
  { id := "evt_" ++ toString bounty.id ++ "_" ++ t.wireName ++ "_" ++ toString env.nowMs
    type := t
    bountyId := bounty.id
    data := bounty
    timestamp := env.nowIso }

/-- Dispatch of one event, index.ts lines 233-240: filter the active
    endpoints subscribed to the event's type, deliver to each in order,
    appending each delivery's log entries to the state. -/
def dispatchEvent (env : PollEnv) (st : StateData) (event : WebhookEvent) :
    StateData :=
  let targets := env.endpoints.filter
    (fun ep => ep.active && ep.events.contains event.type)
  targets.foldl
    (fun st2 target =>
      { st2 with deliveryLog := st2.deliveryLog ++
          (deliverWebhook env.stringify env.hmac env.hmacSecret target event
            (env.outcome target event)).entries })
    st

/-- Processing of one polled record, index.ts lines 209-241: detect events
    against the previous snapshot, overwrite the snapshot unconditionally,
    then dispatch each detected event. -/
def processBounty (env : PollEnv) (st : StateData) (bounty : RawBounty) :
    StateData :=
  let old := st.knownBounties bounty.id
  let events := detectEvents old bounty
  let st1 : StateData :=
    { st with knownBounties := fun k =>
        if k = bounty.id then some (mkSnapshot bounty) else st.knownBounties k }
  (events.map (mkEvent env bounty)).foldl (dispatchEvent env) st1

/-- What the upstream `fetch` of one poll cycle produced: a thrown
    transport error, or an HTTP response with its `ok` flag and its body —
    `none` standing for a body `res.json()` throws on (malformed). -/
inductive UpstreamFetch where
  | transportError
  | httpResponse (ok : Bool) (body : Option (List RawBounty))
deriving Repr

/-- One poll cycle, `pollAndDispatch()` in index.ts lines 199-248: a
    transport error is caught by the surrounding try/catch before any
    mutation; a non-ok response returns early (line 204); a malformed body
    throws out of `res.json()` into the catch, likewise before any
    mutation. On success every record is processed in feed order and the
    state is flushed at the end. -/
def pollAndDispatch (env : PollEnv) (fetched : UpstreamFetch) (st : StateData) :
    StateData :=
  match fetched with
  | .transportError => st
  | .httpResponse false _ => st
  | .httpResponse true none => st
  | .httpResponse true (some bounties) =>
      saveState (bounties.foldl (processBounty env) st)

/-- The upstream fetch of a poll cycle failed: transport error, non-ok
    response, or a body `res.json()` throws on. -/
def fetchFailed : UpstreamFetch → Prop
  | .transportError => True
  | .httpResponse ok body => ok = false ∨ body = none

/-- Position of an event type in the lifecycle order
    created < claimed < submitted < completed. -/
def rank : EventType → Nat
  | .created => 0
  | .claimed => 1
  | .submitted => 2
  | .completed => 3

/-- Concrete serialization stand-in for witnesses and counterexamples. -/
def sampleStringify : WebhookEvent → String :=
  fun event => "payload:" ++ event.id

/-- Concrete HMAC stand-in for witnesses and counterexamples. -/
def sampleHmac : String → String → String :=
  fun key msg => "mac:" ++ key ++ ":" ++ msg

/-- A concrete subscriber endpoint. -/
def sampleEndpoint : WebhookEndpoint :=
  { id := "wh_a1"
    url := "https://example.com/hook"
    events := [.created, .claimed, .submitted, .completed]
    active := true
    secret := some "endpoint-secret"
    createdAt := "2025-01-01T00:00:00.000Z" }

/-- A concrete polled record, first seen with status open. -/
def sampleBounty : RawBounty :=
  { id := 42, status := "open", claimedBy := none, submittedAt := none,
    completedAt := none }

/-- A concrete event value. -/
def sampleEvent : WebhookEvent :=
  { id := "evt_42_bounty.created_1700000000000"
    type := .created
    bountyId := 42
    data := sampleBounty
    timestamp := "2025-01-01T00:00:00.000Z" }

/-- Delivery attempts that all receive HTTP 500. -/
def allHttp500 : Nat → FetchOutcome := fun _ => .response 500

/-- Delivery attempts that all throw at transport level. -/
def allTransportFail : Nat → FetchOutcome := fun _ => .exception

/-- First attempt receives HTTP 500, later attempts HTTP 200. -/
def http500ThenOk : Nat → FetchOutcome :=
  fun attempt => if attempt = 1 then .response 500 else .response 200

/-- A snapshot recorded with status completed. -/
def completedSnapshot : BountySnapshot :=
  { id := 7, status := "completed", claimedBy := some "alice",
    submittedAt := some "2025-02-01T00:00:00.000Z",
    completedAt := some "2025-02-02T00:00:00.000Z" }

/-- The same bounty later polled with the regressed status claimed. -/
def regressedToClaimed : RawBounty :=
  { id := 7, status := "claimed", claimedBy := some "alice",
    submittedAt := none, completedAt := none }

/-- A snapshot recorded with status open. -/
def openSnapshot : BountySnapshot :=
  { id := 7, status := "open", claimedBy := none, submittedAt := none,
    completedAt := none }

/-- The same bounty polled again, status still open. -/
def openBounty : RawBounty :=
  { id := 7, status := "open", claimedBy := none, submittedAt := none,
    completedAt := none }

/-- A record first seen with status completed. -/
def completedBounty : RawBounty :=
  { id := 9, status := "completed", claimedBy := some "bob",
    submittedAt := some "2025-03-01T00:00:00.000Z",
    completedAt := some "2025-03-02T00:00:00.000Z" }

/-- A second snapshot with status completed but different payload fields. -/
def completedSnapshotB : BountySnapshot :=
  { id := 8, status := "completed", claimedBy := none, submittedAt := none,
    completedAt := some "2025-04-01T00:00:00.000Z" }

/-- A second claimed record with different payload fields. -/
def claimedBountyB : RawBounty :=
  { id := 8, status := "claimed", claimedBy := some "carol",
    submittedAt := none, completedAt := none }

/-- A concrete delivery log entry. -/
def sampleLogEntry : DeliveryLogEntry :=
  { eventId := "evt_42_bounty.created_1700000000000"
    endpointId := "wh_a1"
    status := "success"
    attempts := 1
    statusCode := some 200 }

/-- A concrete poll cycle environment. -/
def sampleEnv : PollEnv :=
  { stringify := sampleStringify
    hmac := sampleHmac
    hmacSecret := "default-secret"
    endpoints := [sampleEndpoint]
    outcome := fun _ _ _ => .response 200
    nowMs := 1700000000000
    nowIso := "2025-01-01T00:00:00.000Z" }

/-- A concrete in-memory state with one snapshot and one log entry. -/
def sampleState : StateData :=
  { knownBounties := fun k => if k = 7 then some openSnapshot else none
    deliveryLog := [sampleLogEntry] }

/-- A state whose delivery log holds 1001 entries. -/
def bigLogState : StateData :=
  { knownBounties := fun _ => none
    deliveryLog := List.replicate 1001 sampleLogEntry }

/-- The empty in-memory state. -/
def emptyState : StateData :=
  { knownBounties := fun _ => none, deliveryLog := [] }

/-! ## Theorems -/

/-- C3 (counterexample): the claim says a lifecycle regression such as
    previous status completed and current status claimed emits zero events;
    on the code, that very pair emits `bounty.claimed`. -/
theorem detectEvents_regression_counterexample :
    detectEvents (some completedSnapshot) regressedToClaimed =
      [EventType.claimed] ∧
    detectEvents (some completedSnapshot) regressedToClaimed ≠ [] := by
  constructor <;> decide

/-- C3 (amended): when the previous snapshot exists and the current status
    equals the previous status, detectEvents emits zero events; but a
    regression into a modeled status is not inert — previous completed and
    current claimed emits exactly `bounty.claimed`. -/
theorem detectEvents_unchanged_or_regression (old : BountySnapshot)
    (b : RawBounty) :
    (old.status = b.status → detectEvents (some old) b = []) ∧
    (old.status = "completed" → b.status = "claimed" →
      detectEvents (some old) b = [EventType.claimed]) := by
  constructor
  · intro h
    simp only [detectEvents]
    rw [h]
    split_ifs <;> simp_all
  · intro h1 h2
    simp only [detectEvents, h1, h2]
    decide

/-- C3 (witness): a concrete unchanged pair, status open both times,
    emits zero events. -/
theorem detectEvents_unchanged_or_regression_witness :
    detectEvents (some openSnapshot) openBounty = [] :=
  (detectEvents_unchanged_or_regression openSnapshot openBounty).1 rfl

/-- C4: a record first seen with status completed emits exactly `created`
    then `completed`; in general a first sighting emits `created` first and
    at most one further (backfill) event. -/
theorem detectEvents_first_sighting (b : RawBounty) :
    (b.status = "completed" →
      detectEvents none b = [EventType.created, EventType.completed]) ∧
    (detectEvents none b).head? = some EventType.created ∧
    (detectEvents none b).length ≤ 2 := by
  refine ⟨?_, ?_, ?_⟩
  · intro h
    simp only [detectEvents, h]
    decide
  · simp [detectEvents]
  · simp only [detectEvents]
    split_ifs <;> simp_all

/-- C4 (witness): the concrete record first seen with status completed
    emits exactly `created` then `completed`. -/
theorem detectEvents_first_sighting_witness :
    detectEvents none completedBounty =
      [EventType.created, EventType.completed] :=
  (detectEvents_first_sighting completedBounty).1 rfl

/-- C9: detectEvents is a pure deterministic function of its two
    arguments — its output depends only on the previous snapshot's
    presence and status and the current record's status, so two runs on
    the same (previous, current) pair always yield the same sequence. -/
theorem detectEvents_deterministic (o₁ o₂ : Option BountySnapshot)
    (b₁ b₂ : RawBounty)
    (ho : o₁.map BountySnapshot.status = o₂.map BountySnapshot.status)
    (hb : b₁.status = b₂.status) :
    detectEvents o₁ b₁ = detectEvents o₂ b₂ := by
  cases o₁ <;> cases o₂ <;> simp_all [detectEvents]

/-- C9 (witness): two concrete pairs agreeing only on presence and
    statuses produce the same event sequence. -/
theorem detectEvents_deterministic_witness :
    detectEvents (some completedSnapshot) regressedToClaimed =
      detectEvents (some completedSnapshotB) claimedBountyB :=
  detectEvents_deterministic _ _ _ _ (by decide) (by decide)

/-- C10: every detectEvents output is duplicate-free and strictly ordered
    by lifecycle rank; with a previous snapshot it holds at most one event
    and never `created`; without one it holds at most two events. -/
theorem detectEvents_output_shape (o : Option BountySnapshot) (b : RawBounty) :
    (detectEvents o b).Pairwise (fun a c => rank a < rank c) ∧
    (detectEvents o b).Nodup ∧
    (∀ old, o = some old →
      (detectEvents o b).length ≤ 1 ∧
      EventType.created ∉ detectEvents o b) ∧
    (o = none → (detectEvents o b).length ≤ 2) := by
  cases o with
  | none =>
      simp only [detectEvents]
      split_ifs <;> simp_all <;> decide
  | some old =>
      simp only [detectEvents]
      split_ifs <;> simp_all

/-- C10 (witness): with a previous snapshot present (concrete unchanged
    open pair) the output has at most one event and never `created`. -/
theorem detectEvents_output_shape_witness :
    (detectEvents (some openSnapshot) openBounty).length ≤ 1 ∧
    EventType.created ∉ detectEvents (some openSnapshot) openBounty :=
  (detectEvents_output_shape (some openSnapshot) openBounty).2.2.1
    openSnapshot rfl

/-- C1 (counterexample): the claim says a delivery whose every attempt
    fails appends exactly one log entry; when every attempt fails with an
    HTTP 500 response the code makes 3 attempts but appends 4 entries (one
    per responded attempt plus the terminal one). -/
theorem deliverWebhook_http_failures_log_counterexample :
    attemptFails (allHttp500 1) ∧ attemptFails (allHttp500 2) ∧
    attemptFails (allHttp500 3) ∧
    (deliverWebhook sampleStringify sampleHmac "default-secret"
      sampleEndpoint sampleEvent allHttp500).requests.length = 3 ∧
    (deliverWebhook sampleStringify sampleHmac "default-secret"
      sampleEndpoint sampleEvent allHttp500).entries.length = 4 :=
  ⟨rfl, rfl, rfl, rfl, rfl⟩

/-- C1 (amended): a delivery whose every attempt fails makes exactly 3
    attempts, returns failure, and its appended log entries are exactly:
    one `failed` entry per attempt that received a non-2xx HTTP response,
    carrying that attempt's number and status code, in attempt order
    (transport-level failures append no per-attempt entry), followed by
    the single terminal `failed` entry with attempt count 3 and no status
    code — so an endpoint failing at transport level on every try yields
    exactly one entry. -/
theorem deliverWebhook_all_attempts_fail (stringify : WebhookEvent → String)
    (hmac : String → String → String) (hmacSecret : String)
    (endpoint : WebhookEndpoint) (event : WebhookEvent)
    (outcome : Nat → FetchOutcome)
    (h1 : attemptFails (outcome 1)) (h2 : attemptFails (outcome 2))
    (h3 : attemptFails (outcome 3)) :
    (deliverWebhook stringify hmac hmacSecret endpoint event
      outcome).returned = false ∧
    (deliverWebhook stringify hmac hmacSecret endpoint event
      outcome).requests.length = 3 ∧
    (deliverWebhook stringify hmac hmacSecret endpoint event
      outcome).entries =
      httpFailEntries endpoint event outcome MAX_RETRIES ++
        [exhaustedEntry endpoint event] := by
  rcases ho1 : outcome 1 with s1 | _ <;> rcases ho2 : outcome 2 with s2 | _ <;>
    rcases ho3 : outcome 3 with s3 | _ <;>
    simp_all [deliverWebhook, deliverLoop, MAX_RETRIES, attemptFails,
      httpFailEntries, responseEntry, exhaustedEntry]

/-- C1 (witness): a delivery failing at transport level on all 3 attempts
    makes 3 attempts, returns failure, and appends exactly one log entry:
    the terminal failed one. -/
theorem deliverWebhook_all_attempts_fail_witness :
    (deliverWebhook sampleStringify sampleHmac "default-secret"
      sampleEndpoint sampleEvent allTransportFail).returned = false ∧
    (deliverWebhook sampleStringify sampleHmac "default-secret"
      sampleEndpoint sampleEvent allTransportFail).requests.length = 3 ∧
    (deliverWebhook sampleStringify sampleHmac "default-secret"
      sampleEndpoint sampleEvent allTransportFail).entries =
      [exhaustedEntry sampleEndpoint sampleEvent] := by
  have h := deliverWebhook_all_attempts_fail sampleStringify sampleHmac
    "default-secret" sampleEndpoint sampleEvent allTransportFail
    trivial trivial trivial
  exact ⟨h.1, h.2.1, h.2.2.trans rfl⟩

/-- C2 (counterexample): the claim says a delivery succeeding on attempt N
    appends no log entries for attempts 1..N-1; when attempt 1 fails with
    HTTP 500 and attempt 2 succeeds with HTTP 200, the code appends a
    `failed` entry for attempt 1 before the `success` entry for attempt 2. -/
theorem deliverWebhook_retry_success_log_counterexample :
    (deliverWebhook sampleStringify sampleHmac "default-secret"
      sampleEndpoint sampleEvent http500ThenOk).returned = true ∧
    (deliverWebhook sampleStringify sampleHmac "default-secret"
      sampleEndpoint sampleEvent http500ThenOk).requests.length = 2 ∧
    (deliverWebhook sampleStringify sampleHmac "default-secret"
      sampleEndpoint sampleEvent http500ThenOk).entries.map
        (fun e => (e.status, e.attempts)) =
      [("failed", 1), ("success", 2)] := by
  refine ⟨rfl, rfl, ?_⟩
  decide

/-- C2 (amended): a delivery succeeding on attempt N (the earlier attempts
    having failed) returns success after exactly N attempts, and its
    appended log entries are exactly: one `failed` entry per earlier
    attempt that failed with a non-2xx HTTP response, carrying that
    attempt's number and status code, in attempt order (earlier
    transport-level failures leave no entry), followed by the single
    `success` entry with attempt count N and the response's status code. -/
theorem deliverWebhook_success_on_nth (stringify : WebhookEvent → String)
    (hmac : String → String → String) (hmacSecret : String)
    (endpoint : WebhookEndpoint) (event : WebhookEvent)
    (outcome : Nat → FetchOutcome) (N s : Nat)
    (hN1 : 1 ≤ N) (hN3 : N ≤ 3)
    (hprev : ∀ i, 1 ≤ i → i < N → attemptFails (outcome i))
    (hsucc : outcome N = .response s) (hok : respOk s = true) :
    (deliverWebhook stringify hmac hmacSecret endpoint event
      outcome).returned = true ∧
    (deliverWebhook stringify hmac hmacSecret endpoint event
      outcome).requests.length = N ∧
    (deliverWebhook stringify hmac hmacSecret endpoint event
      outcome).entries =
      httpFailEntries endpoint event outcome (N - 1) ++
        [{ eventId := event.id, endpointId := endpoint.id,
           status := "success", attempts := N, statusCode := some s }] := by
  interval_cases N
  · simp_all [deliverWebhook, deliverLoop, MAX_RETRIES, httpFailEntries,
      responseEntry]
  · have hf1 := hprev 1 le_rfl (by omega)
    rcases ho1 : outcome 1 with s1 | _ <;>
      simp_all [deliverWebhook, deliverLoop, MAX_RETRIES, attemptFails,
        httpFailEntries, responseEntry]
  · have hf1 := hprev 1 le_rfl (by omega)
    have hf2 := hprev 2 (by omega) (by omega)
    rcases ho1 : outcome 1 with s1 | _ <;>
      rcases ho2 : outcome 2 with s2 | _ <;>
      simp_all [deliverWebhook, deliverLoop, MAX_RETRIES, attemptFails,
        httpFailEntries, responseEntry]

/-- C2 (witness): a delivery whose first attempt fails with HTTP 500 and
    whose second succeeds with HTTP 200 returns success after 2 attempts
    and appends exactly the `failed` entry for attempt 1 with status code
    500, then the `success` entry with attempt count 2. -/
theorem deliverWebhook_success_on_nth_witness :
    (deliverWebhook sampleStringify sampleHmac "default-secret"
      sampleEndpoint sampleEvent http500ThenOk).returned = true ∧
    (deliverWebhook sampleStringify sampleHmac "default-secret"
      sampleEndpoint sampleEvent http500ThenOk).requests.length = 2 ∧
    (deliverWebhook sampleStringify sampleHmac "default-secret"
      sampleEndpoint sampleEvent http500ThenOk).entries =
      [{ eventId := sampleEvent.id, endpointId := sampleEndpoint.id,
         status := "failed", attempts := 1, statusCode := some 500 },
       { eventId := sampleEvent.id, endpointId := sampleEndpoint.id,
         status := "success", attempts := 2, statusCode := some 200 }] := by
  have h := deliverWebhook_success_on_nth sampleStringify sampleHmac
    "default-secret" sampleEndpoint sampleEvent http500ThenOk
    2 200 (by decide) (by decide)
    (fun i h1 h2 => by
      interval_cases i
      exact rfl)
    rfl rfl
  refine ⟨h.1, h.2.1, h.2.2.trans ?_⟩
  decide

/-- Every request the retry loop sends is the one request built from the
    payload and signature fixed before the loop. -/
theorem deliverLoop_requests_const (endpoint : WebhookEndpoint)
    (event : WebhookEvent) (payload signature : String)
    (outcome : Nat → FetchOutcome) (fuel attempt : Nat) :
    ∀ req ∈ (deliverLoop endpoint event payload signature outcome
      attempt fuel).requests,
      req = mkRequest endpoint event payload signature := by
  induction fuel generalizing attempt with
  | zero => simp [deliverLoop]
  | succ fuel ih =>
      intro req hreq
      simp only [deliverLoop] at hreq
      rcases ho : outcome attempt with s | _ <;> rw [ho] at hreq
      · by_cases hs : respOk s
        · simp [hs] at hreq
          exact hreq
        · simp [hs] at hreq
          rcases hreq with hreq | hreq
          · exact hreq
          · exact ih (attempt + 1) req hreq
      · simp at hreq
        rcases hreq with hreq | hreq
        · exact hreq
        · exact ih (attempt + 1) req hreq

/-- C5: the event is serialized once; every attempt of a delivery posts
    that same serialization as its body, and carries the X-Signature
    header `sha256=` followed by the HMAC of those literal bytes under the
    resolved key — the subscriber's secret when present and non-empty,
    else the process-wide default key. -/
theorem deliverWebhook_signed_payload (stringify : WebhookEvent → String)
    (hmac : String → String → String) (hmacSecret : String)
    (endpoint : WebhookEndpoint) (event : WebhookEvent)
    (outcome : Nat → FetchOutcome) :
    ∀ req ∈ (deliverWebhook stringify hmac hmacSecret endpoint event
      outcome).requests,
      req.body = stringify event ∧
      req.xSignature =
        "sha256=" ++
          hmac (resolveKey hmacSecret endpoint.secret) (stringify event) := by
  intro req hreq
  have h := deliverLoop_requests_const endpoint event (stringify event)
    (signPayload hmac hmacSecret (stringify event) endpoint.secret)
    outcome MAX_RETRIES 1 req hreq
  subst h
  exact ⟨rfl, rfl⟩

/-- C5 (witness): the first request of a concrete delivery carries the
    serialized event as body and the signature of those bytes under the
    endpoint's own secret. -/
theorem deliverWebhook_signed_payload_witness :
    (mkRequest sampleEndpoint sampleEvent (sampleStringify sampleEvent)
      (signPayload sampleHmac "default-secret" (sampleStringify sampleEvent)
        sampleEndpoint.secret)).body = sampleStringify sampleEvent ∧
    (mkRequest sampleEndpoint sampleEvent (sampleStringify sampleEvent)
      (signPayload sampleHmac "default-secret" (sampleStringify sampleEvent)
        sampleEndpoint.secret)).xSignature =
      "sha256=" ++ sampleHmac
        (resolveKey "default-secret" sampleEndpoint.secret)
        (sampleStringify sampleEvent) :=
  deliverWebhook_signed_payload sampleStringify sampleHmac "default-secret"
    sampleEndpoint sampleEvent allTransportFail _ (by decide)

/-- C6: a poll cycle whose upstream fetch fails — transport error, non-ok
    response, or a malformed body — leaves the state (snapshot store and
    delivery log) exactly as it was: no detection, no dispatch, no
    persistence of anything new. -/
theorem pollAndDispatch_fetch_failure_noop (env : PollEnv)
    (fetched : UpstreamFetch) (st : StateData) (h : fetchFailed fetched) :
    pollAndDispatch env fetched st = st := by
  cases fetched with
  | transportError => rfl
  | httpResponse ok body =>
      rcases h with h | h
      · subst h; rfl
      · subst h; cases ok <;> rfl

/-- C6 (witness): a concrete cycle receiving a non-ok response with a
    malformed body leaves the concrete state untouched. -/
theorem pollAndDispatch_fetch_failure_noop_witness :
    pollAndDispatch sampleEnv (UpstreamFetch.httpResponse false none)
      sampleState = sampleState :=
  pollAndDispatch_fetch_failure_noop sampleEnv _ sampleState (Or.inl rfl)

/-- C7: after a persistence flush the delivery log holds at most 1000
    entries; when it held more, exactly the most recent 1000 survive, in
    order, the oldest prefix discarded. -/
theorem saveState_caps_log (st : StateData) :
    (saveState st).deliveryLog.length ≤ 1000 ∧
    (1000 < st.deliveryLog.length →
      (saveState st).deliveryLog.length = 1000 ∧
      st.deliveryLog =
        st.deliveryLog.take (st.deliveryLog.length - 1000) ++
          (saveState st).deliveryLog) := by
  by_cases h : 1000 < st.deliveryLog.length
  · have hgt : st.deliveryLog.length > 1000 := h
    simp only [saveState, if_pos hgt, List.length_drop]
    refine ⟨by omega, fun _ => ⟨by omega, (List.take_append_drop _ _).symm⟩⟩
  · have hle : ¬ st.deliveryLog.length > 1000 := h
    simp only [saveState, if_neg hle]
    exact ⟨by omega, fun hc => absurd hc h⟩

/-- C7 (witness): flushing a concrete state holding 1001 log entries
    leaves exactly 1000. -/
theorem saveState_caps_log_witness :
    (saveState bigLogState).deliveryLog.length = 1000 :=
  ((saveState_caps_log bigLogState).2
    (by simp only [bigLogState, List.length_replicate]; omega)).1

/-- Dispatching an event only appends to the delivery log; the snapshot
    store is untouched. -/
theorem dispatchEvent_knownBounties (env : PollEnv) (st : StateData)
    (event : WebhookEvent) :
    (dispatchEvent env st event).knownBounties = st.knownBounties := by
  have H : ∀ (targets : List WebhookEndpoint) (st0 : StateData),
      (targets.foldl
        (fun st2 target =>
          { st2 with deliveryLog := st2.deliveryLog ++
              (deliverWebhook env.stringify env.hmac env.hmacSecret target
                event (env.outcome target event)).entries })
        st0).knownBounties = st0.knownBounties := by
    intro targets
    induction targets with
    | nil => intro st0; rfl
    | cons t ts ih => intro st0; rw [List.foldl_cons, ih]
  simpa only [dispatchEvent] using H _ st

/-- Dispatching a list of events leaves the snapshot store untouched. -/
theorem foldl_dispatchEvent_knownBounties (env : PollEnv)
    (events : List WebhookEvent) (st : StateData) :
    (events.foldl (dispatchEvent env) st).knownBounties = st.knownBounties := by
  induction events generalizing st with
  | nil => rfl
  | cons e es ih => rw [List.foldl_cons, ih, dispatchEvent_knownBounties]

/-- Processing one record updates exactly that record's snapshot. -/
theorem processBounty_knownBounties (env : PollEnv) (st : StateData)
    (bounty : RawBounty) :
    (processBounty env st bounty).knownBounties = fun k =>
      if k = bounty.id then some (mkSnapshot bounty)
      else st.knownBounties k := by
  simp only [processBounty]
  rw [foldl_dispatchEvent_knownBounties]

/-- The persistence flush does not change the snapshot store. -/
theorem saveState_knownBounties (st : StateData) :
    (saveState st).knownBounties = st.knownBounties := by
  unfold saveState
  split <;> rfl

/-- An id absent from the processed records keeps its snapshot through the
    whole record-processing fold. -/
theorem foldl_processBounty_not_mem (env : PollEnv)
    (bounties : List RawBounty) :
    ∀ (st : StateData) (i : Int), i ∉ bounties.map RawBounty.id →
      (bounties.foldl (processBounty env) st).knownBounties i =
        st.knownBounties i := by
  induction bounties with
  | nil => intro st i _; rfl
  | cons b bs ih =>
      intro st i hi
      simp only [List.map_cons, List.mem_cons, not_or] at hi
      rw [List.foldl_cons, ih _ i hi.2, processBounty_knownBounties]
      simp [hi.1]

/-- When ids are pairwise distinct, each processed record's snapshot ends
    up overwritten with that record's freshly polled state. -/
theorem foldl_processBounty_mem (env : PollEnv) (bounties : List RawBounty) :
    ∀ (st : StateData) (b : RawBounty),
      (bounties.map RawBounty.id).Nodup → b ∈ bounties →
      (bounties.foldl (processBounty env) st).knownBounties b.id =
        some (mkSnapshot b) := by
  induction bounties with
  | nil => intro st b _ hb; cases hb
  | cons c cs ih =>
      intro st b hnd hb
      simp only [List.map_cons, List.nodup_cons] at hnd
      rw [List.foldl_cons]
      rcases List.mem_cons.mp hb with hb | hb
      · subst hb
        rw [foldl_processBounty_not_mem env cs _ b.id hnd.1,
          processBounty_knownBounties]
        simp
      · exact ih _ b hnd.2 hb

/-- C8: on a successful poll cycle, every fetched record's snapshot is
    overwritten with the freshly polled state (distinct ids assumed, as
    the upstream collection carries one record per resource), even when
    zero events fired for it; snapshots of ids absent from the fetched
    collection are never deleted and remain unchanged. -/
theorem pollAndDispatch_snapshot_overwrite (env : PollEnv)
    (bounties : List RawBounty) (st : StateData) :
    (∀ i : Int, i ∉ bounties.map RawBounty.id →
      (pollAndDispatch env (.httpResponse true (some bounties))
        st).knownBounties i = st.knownBounties i) ∧
    ((bounties.map RawBounty.id).Nodup →
      ∀ b ∈ bounties,
        (pollAndDispatch env (.httpResponse true (some bounties))
          st).knownBounties b.id = some (mkSnapshot b)) := by
  constructor
  · intro i hi
    show (saveState (bounties.foldl (processBounty env) st)).knownBounties i
      = st.knownBounties i
    rw [saveState_knownBounties]
    exact foldl_processBounty_not_mem env bounties st i hi
  · intro hnd b hb
    show (saveState (bounties.foldl (processBounty env) st)).knownBounties
      b.id = some (mkSnapshot b)
    rw [saveState_knownBounties]
    exact foldl_processBounty_mem env bounties st b hnd hb

/-- C8 (witness): a concrete successful cycle fetching one record with id
    42 installs its snapshot and leaves the absent id 0 untracked. -/
theorem pollAndDispatch_snapshot_overwrite_witness :
    (pollAndDispatch sampleEnv
      (UpstreamFetch.httpResponse true (some [sampleBounty]))
      emptyState).knownBounties 0 = emptyState.knownBounties 0 ∧
    (pollAndDispatch sampleEnv
      (UpstreamFetch.httpResponse true (some [sampleBounty]))
      emptyState).knownBounties 42 = some (mkSnapshot sampleBounty) := by
  have h := pollAndDispatch_snapshot_overwrite sampleEnv [sampleBounty]
    emptyState
  exact ⟨h.1 0 (by decide), h.2 (by decide) sampleBounty (by simp)⟩

end BountyWebhooks
